import Mathlib

/-!
Shallow embedding of the everwave distribution Solana program
(`src/program/src/state.rs`, `src/program/src/instruction.rs`,
`src/program/src/processor.rs`, `src/program/src/error.rs`).

Machine integers are modelled as `Nat` with explicit `% 2^w` where overflow
semantics matter; Rust panics (`unwrap`, out-of-bounds `split_at`/indexing)
are modelled as the distinguished error `PErr.Panic`; fallible code returns
`Except`.  External collaborators (the SPL token program's transfer, the
system program's create-account, the Rent sysvar, and SHA-based program
address derivation) are outside the repository: CPI transfers are recorded
as `Transfer` values and assumed to succeed, and address derivation is a
function parameter `derive` of the handlers that call it.
-/

deriving instance DecidableEq for Except

/-- A Solana public key: 32 raw bytes, modelled as a list of byte values. -/
abbrev Pubkey := List Nat

/-- Model of `Pubkey::default()`: 32 zero bytes. -/
def defaultPubkey : Pubkey := List.replicate 32 0

def PUBKEY_BYTES : Nat := 32

def U16_MOD : Nat := 2 ^ 16

def U64_MOD : Nat := 2 ^ 64

/-- Little-endian byte encoding of a `u16`, as Borsh writes it. -/
def encodeU16 (x : Nat) : List Nat := [x % 256, x / 256 % 256]

/-- Little-endian decoding of 2 bytes into a `u16` value. -/
def decodeU16 (b : List Nat) : Nat := b.getD 0 0 + 256 * b.getD 1 0

/-- Little-endian byte encoding of a `u64`, as Borsh writes it. -/
def encodeU64 (x : Nat) : List Nat :=
  [x % 256, x / 256 % 256, x / 256 ^ 2 % 256, x / 256 ^ 3 % 256,
   x / 256 ^ 4 % 256, x / 256 ^ 5 % 256, x / 256 ^ 6 % 256, x / 256 ^ 7 % 256]

/-- Little-endian decoding of 8 bytes into a `u64` value. -/
def decodeU64 (b : List Nat) : Nat :=
  b.getD 0 0 + 256 * b.getD 1 0 + 256 ^ 2 * b.getD 2 0 + 256 ^ 3 * b.getD 3 0 +
  256 ^ 4 * b.getD 4 0 + 256 ^ 5 * b.getD 5 0 + 256 ^ 6 * b.getD 6 0 +
  256 ^ 7 * b.getD 7 0

/-- Model of `ProgramError` variants reachable in this program, plus `Panic` for Rust
panics/aborts (`unwrap` on `None`, `split_at`/indexing out of bounds) and
`Custom code` for `ProgramError::Custom(DistError as u32)`. -/
inductive PErr where
  | NotEnoughAccountKeys
  | MissingRequiredSignature
  | InvalidSeeds
  | InvalidAccountData
  | IncorrectProgramId
  | InvalidArgument
  | UninitializedAccount
  | AccountAlreadyInitialized
  | BorshIoError
  | Custom (code : Nat)
  | Panic
deriving DecidableEq, Repr

/-- Model of `DistError` from `error.rs`, in declaration order (discriminants 0..7). -/
inductive DistError where
  | InvalidInstruction
  | AlreadyInitialized
  | DistributionAlreadyStarted
  | TokenInitializeAccountFailed
  | TokenTransferFailed
  | UnauthorizedDistAuthority
  | TokenAccountOwnerMismatch
  | TooManyRecipients
deriving DecidableEq, Repr

/-- Model of `e as u32`: the enum discriminant used by `From<DistError> for ProgramError`. -/
def DistError.toU32 : DistError → Nat
  | .InvalidInstruction => 0
  | .AlreadyInitialized => 1
  | .DistributionAlreadyStarted => 2
  | .TokenInitializeAccountFailed => 3
  | .TokenTransferFailed => 4
  | .UnauthorizedDistAuthority => 5
  | .TokenAccountOwnerMismatch => 6
  | .TooManyRecipients => 7

/-- Model of `ProgramError::Custom(e as u32)` conversion from `error.rs`. -/
def distErr (e : DistError) : PErr := .Custom e.toU32

def UNINITIALIZED_VERSION : Nat := 0

def VERSION_1 : Nat := 1

def PDA_SEED_SIZE : Nat := PUBKEY_BYTES + PUBKEY_BYTES + 1

/-- Model of `PdaSeed` from `state.rs`: the stored derivation inputs. -/
structure PdaSeed where
  seed : Pubkey
  project_name : Pubkey
  bump : Nat
deriving DecidableEq, Repr

def DISTRIBUTION_V1_SIZE : Nat :=
  PDA_SEED_SIZE + PUBKEY_BYTES + PUBKEY_BYTES + 2 + 2 + 8 + 2

/-- Model of `DistributionV1` from `state.rs`. `max_recipients`, `num_recipients`,
`sent_recipients` are `u16`; `funded_amount` is `u64`. -/
structure DistributionV1 where
  pda_seed : PdaSeed
  dist_authority : Pubkey
  token : Pubkey
  max_recipients : Nat
  num_recipients : Nat
  funded_amount : Nat
  sent_recipients : Nat
deriving DecidableEq, Repr

def DISTRIBUTION_SIZE : Nat := 1 + DISTRIBUTION_V1_SIZE

/-- Model of `Distribution` from `state.rs`: a version byte plus the V1 payload. -/
structure Distribution where
  version : Nat
  data : DistributionV1
deriving DecidableEq, Repr

/-- Model of `DistributionV1::default()`: zero/default-valued fields. -/
def distributionV1Default : DistributionV1 :=
  ⟨⟨defaultPubkey, defaultPubkey, 0⟩, defaultPubkey, defaultPubkey, 0, 0, 0, 0⟩

/-- Model of `Distribution::default()`: uninitialized version with default payload. -/
def distributionDefault : Distribution :=
  ⟨UNINITIALIZED_VERSION, distributionV1Default⟩

/-- Model of `Distribution::init` from `state.rs`. -/
def Distribution.init (d : Distribution) (pda_seed : PdaSeed)
    (dist_authority token : Pubkey) (max_recipients num_recipients : Nat) :
    Distribution :=
  { d with
    version := VERSION_1,
    data := { d.data with
      pda_seed := pda_seed,
      dist_authority := dist_authority,
      token := token,
      max_recipients := max_recipients,
      num_recipients := num_recipients } }

/-- Model of `Distribution::recipient_share` from `state.rs`: integer division of
`funded_amount` by `num_recipients`, 0 when `num_recipients == 0`. -/
def Distribution.recipient_share (d : Distribution) : Nat :=
  if d.data.num_recipients = 0 then 0
  else d.data.funded_amount / d.data.num_recipients

/-- Model of `Distribution::record_funded_amount` from `state.rs`:
`checked_add(amount).unwrap()` — a `u64` overflow panics (aborts), never
wraps. -/
def Distribution.record_funded_amount (d : Distribution) (amount : Nat) :
    Except PErr Distribution :=
  if d.data.funded_amount + amount < U64_MOD then
    .ok { d with data := { d.data with
      funded_amount := d.data.funded_amount + amount } }
  else .error .Panic

/-- Model of `Distribution::record_sent_recipient` from `state.rs`: increments the
`u16` counter (`+= 1`, wrapping in release builds); the recipient argument
is ignored by the source. -/
def Distribution.record_sent_recipient (d : Distribution) (_recipient : Pubkey) :
    Distribution :=
  { d with data := { d.data with
    sent_recipients := (d.data.sent_recipients + 1) % U16_MOD } }

/-- Model of `Distribution::has_started` from `state.rs`. -/
def Distribution.has_started (d : Distribution) : Bool :=
  d.data.num_recipients > 0

/-- Model of `Distribution::set_dist_authority` from `state.rs`. -/
def Distribution.set_dist_authority (d : Distribution) (new_dist_authority : Pubkey) :
    Distribution :=
  { d with data := { d.data with dist_authority := new_dist_authority } }

/-- Model of `Distribution::set_num_recipients` from `state.rs`. -/
def Distribution.set_num_recipients (d : Distribution) (num_recipients : Nat) :
    Distribution :=
  { d with data := { d.data with num_recipients := num_recipients } }

/-- Model of `IsInitialized for Distribution` from `state.rs`. -/
def Distribution.is_initialized (d : Distribution) : Bool :=
  d.version ≠ UNINITIALIZED_VERSION

/-- The Borsh serialization of a `Distribution` (the bytes
`pack_into_slice` writes): version byte, then the `DistributionV1` fields in
declaration order, integers little-endian, pubkeys as raw 32-byte blocks. -/
def serializeDistribution (d : Distribution) : List Nat :=
  [d.version % 256] ++
  d.data.pda_seed.seed ++ d.data.pda_seed.project_name ++
  [d.data.pda_seed.bump % 256] ++
  d.data.dist_authority ++ d.data.token ++
  encodeU16 d.data.max_recipients ++ encodeU16 d.data.num_recipients ++
  encodeU64 d.data.funded_amount ++ encodeU16 d.data.sent_recipients

/-- Borsh's fixed-size read: split off `n` bytes or fail (Borsh io error,
surfaced as `ProgramError::BorshIoError` through the `?` conversion). -/
def readBytes (n : Nat) (src : List Nat) : Except PErr (List Nat × List Nat) :=
  if n ≤ src.length then .ok (src.take n, src.drop n) else .error .BorshIoError

/-- Model of `Distribution::try_from_slice` (Borsh deserialization of the full fixed
layout, requiring the slice to be exactly consumed). -/
def Distribution.try_from_slice (src : List Nat) : Except PErr Distribution := do
  let (v, src) ← readBytes 1 src
  let (seed, src) ← readBytes PUBKEY_BYTES src
  let (pname, src) ← readBytes PUBKEY_BYTES src
  let (bump, src) ← readBytes 1 src
  let (auth, src) ← readBytes PUBKEY_BYTES src
  let (token, src) ← readBytes PUBKEY_BYTES src
  let (maxr, src) ← readBytes 2 src
  let (numr, src) ← readBytes 2 src
  let (funded, src) ← readBytes 8 src
  let (sent, src) ← readBytes 2 src
  if src = [] then
    .ok ⟨v.getD 0 0,
      ⟨⟨seed, pname, bump.getD 0 0⟩, auth, token,
        decodeU16 maxr, decodeU16 numr, decodeU64 funded, decodeU16 sent⟩⟩
  else .error .BorshIoError

/-- Model of `Pack::unpack_from_slice` for `Distribution` from `state.rs`: version
byte 0 yields the default record, version 1 Borsh-parses the whole slice,
anything else is `InvalidAccountData`.  `src[0]` on an empty slice is a
panic. -/
def Distribution.unpack_from_slice (src : List Nat) : Except PErr Distribution :=
  match src with
  | [] => .error .Panic
  | v :: _ =>
    if v = UNINITIALIZED_VERSION then .ok distributionDefault
    else if v = VERSION_1 then Distribution.try_from_slice src
    else .error .InvalidAccountData

/-- Model of `Pack::unpack_unchecked` (solana_program): length must equal `LEN`. -/
def Distribution.unpack_unchecked (src : List Nat) : Except PErr Distribution :=
  if src.length ≠ DISTRIBUTION_SIZE then .error .InvalidAccountData
  else Distribution.unpack_from_slice src

/-- Model of `Pack::unpack` (solana_program): `unpack_unchecked` plus the
`is_initialized` gate. -/
def Distribution.unpack (src : List Nat) : Except PErr Distribution := do
  let d ← Distribution.unpack_unchecked src
  if d.is_initialized then pure d else .error .UninitializedAccount

/-- Model of `Pack::pack` (solana_program): destination length must equal `LEN`,
then `pack_into_slice` writes the serialized record over the region.
Returns the new contents of the region. -/
def Distribution.pack (d : Distribution) (dstLen : Nat) : Except PErr (List Nat) :=
  if dstLen ≠ DISTRIBUTION_SIZE then .error .InvalidAccountData
  else .ok (serializeDistribution d)

/-- Well-formedness of a version-1 record as Rust's types guarantee it:
pubkeys are 32 bytes, `u8`/`u16`/`u64` fields are in range. -/
def ValidV1 (d : Distribution) : Prop :=
  d.version = VERSION_1 ∧
  d.data.pda_seed.seed.length = 32 ∧
  d.data.pda_seed.project_name.length = 32 ∧
  d.data.pda_seed.bump < 256 ∧
  d.data.dist_authority.length = 32 ∧
  d.data.token.length = 32 ∧
  d.data.max_recipients < U16_MOD ∧
  d.data.num_recipients < U16_MOD ∧
  d.data.funded_amount < U64_MOD ∧
  d.data.sent_recipients < U16_MOD

instance (d : Distribution) : Decidable (ValidV1 d) := by
  unfold ValidV1; infer_instance

/-- Model of `DistInstruction` from `instruction.rs`. -/
inductive DistInstruction where
  | InitializeDistribution (seed : Pubkey) (project_name : Pubkey)
      (seed_bump : Nat) (max_recipients : Nat) (dist_authority : Pubkey)
  | FundDistribution (amount : Nat)
  | SetDistAuthority (new_dist_authority : Pubkey)
  | BeginDistribution (num_recipients : Nat)
  | Distribute
deriving DecidableEq, Repr

/-- Model of `DistInstruction::unpack_pubkey` from `instruction.rs`: take 32 bytes or
fail with `InvalidInstruction`. -/
def DistInstruction.unpack_pubkey (input : List Nat) :
    Except PErr (Pubkey × List Nat) :=
  if PUBKEY_BYTES ≤ input.length then
    .ok (input.take PUBKEY_BYTES, input.drop PUBKEY_BYTES)
  else .error (distErr .InvalidInstruction)

/-- Rust's `slice::split_at(mid)`: panics when `mid > len`. -/
def splitAtChecked (mid : Nat) (l : List Nat) :
    Except PErr (List Nat × List Nat) :=
  if mid ≤ l.length then .ok (l.take mid, l.drop mid) else .error .Panic

/-- Model of `DistInstruction::unpack` from `instruction.rs`, faithful to the source's
use of `split_at` (which panics on short input) for the tag-0/1/3 integer
fields, while pubkey fields go through the length-checked `unpack_pubkey`. -/
def DistInstruction.unpack (input : List Nat) : Except PErr DistInstruction :=
  match input with
  | [] => .error (distErr .InvalidInstruction)
  | tag :: rest =>
    match tag with
    | 0 => do
      let (seed, rest) ← DistInstruction.unpack_pubkey rest
      let (project_name, rest) ← DistInstruction.unpack_pubkey rest
      let (seed_bump_bytes, rest) ← splitAtChecked 1 rest
      let seed_bump := seed_bump_bytes.getD 0 0
      let (max_recipients_bytes, rest) ← splitAtChecked 2 rest
      let max_recipients := decodeU16 max_recipients_bytes
      let (dist_authority, _rest) ← DistInstruction.unpack_pubkey rest
      .ok (.InitializeDistribution seed project_name seed_bump max_recipients
        dist_authority)
    | 1 => do
      let (amount_bytes, _rest) ← splitAtChecked 8 rest
      .ok (.FundDistribution (decodeU64 amount_bytes))
    | 2 => do
      let (new_dist_authority, _rest) ← DistInstruction.unpack_pubkey rest
      .ok (.SetDistAuthority new_dist_authority)
    | 3 => do
      let (num_recipients_bytes, _rest) ← splitAtChecked 2 rest
      .ok (.BeginDistribution (decodeU16 num_recipients_bytes))
    | 4 => .ok .Distribute
    | _ => .error (distErr .InvalidInstruction)

/-- An account as the processor sees it: address, owning program, signer
flag, and the raw data region (only meaningful for the distribution
account). -/
structure AccountInfo where
  key : Pubkey
  owner : Pubkey
  is_signer : Bool
  dataBytes : List Nat
deriving DecidableEq, Repr

/-- One SPL-token transfer CPI issued by a handler (the external token mover
collaborator; the transfer itself is performed outside this program). -/
structure Transfer where
  token_program : Pubkey
  source : Pubkey
  destination : Pubkey
  authority : Pubkey
  amount : Nat
deriving DecidableEq, Repr

/-- Outcome of one handler invocation: result, the distribution account's
data region after the call (`none` when the handler failed before even
locating the distribution account), and the token-transfer CPIs issued. -/
structure ExecResult where
  result : Except PErr Unit
  distData : Option (List Nat)
  transfers : List Transfer
deriving DecidableEq, Repr

/-- Model of `cmp_pubkeys` from `processor.rs`: `sol_memcmp` over the 32 key bytes,
i.e. byte equality. -/
def cmp_pubkeys (a b : Pubkey) : Bool := a = b

/-- The SPL token program id (an external constant from the `spl_token`
crate), modelled as a fixed distinguished 32-byte value. -/
def splTokenId : Pubkey := List.replicate 32 6

/-- Model of `spl_token::check_program_account`: `IncorrectProgramId` unless the key
is the SPL token program id. -/
def check_program_account (key : Pubkey) : Bool := cmp_pubkeys key splTokenId

/-- The type of `Pubkey::create_program_address` (an external SHA-256-based
computation from the Solana SDK): from the stored seeds and the program id
to an address, or `none` (`PubkeyError::InvalidSeeds`). Handlers that call
it take it as a parameter. -/
abbrev DeriveFn := PdaSeed → Pubkey → Option Pubkey

/-- Model of `PdaSeed::create_pubkey` from `state.rs`, relative to a derivation
function. -/
def PdaSeed.create_pubkey (p : PdaSeed) (derive : DeriveFn)
    (program_id : Pubkey) : Except PErr Pubkey :=
  match derive p program_id with
  | some k => .ok k
  | none => .error .InvalidSeeds

/-- Model of `process_initialize_distribution` from `processor.rs`.  The
create-account CPI and the Rent sysvar are external collaborators modelled
as succeeding; the distribution account's data region is the one supplied
in the account list (zero-filled for a freshly created account). -/
def process_initialize_distribution (derive : DeriveFn) (program_id : Pubkey)
    (accounts : List AccountInfo) (seed project_name : Pubkey) (seed_bump : Nat)
    (max_recipients : Nat) (dist_authority : Pubkey) : ExecResult :=
  match accounts with
  | fee_payer :: _system_program :: token_program :: token :: dist :: _rest =>
    if !check_program_account token_program.key then
      ⟨.error .IncorrectProgramId, none, []⟩
    else if !fee_payer.is_signer then
      ⟨.error .MissingRequiredSignature, some dist.dataBytes, []⟩
    else
      let pda_seed : PdaSeed := ⟨seed, project_name, seed_bump⟩
      match pda_seed.create_pubkey derive program_id with
      | .error e => ⟨.error e, some dist.dataBytes, []⟩
      | .ok dist_account_pubkey =>
        if !cmp_pubkeys dist.key dist_account_pubkey then
          ⟨.error .InvalidSeeds, some dist.dataBytes, []⟩
        else
          match Distribution.unpack_unchecked dist.dataBytes with
          | .error e => ⟨.error e, some dist.dataBytes, []⟩
          | .ok d =>
            if d.is_initialized then
              ⟨.error .AccountAlreadyInitialized, some dist.dataBytes, []⟩
            else
              let d := d.init pda_seed dist_authority token.key max_recipients 0
              match d.pack dist.dataBytes.length with
              | .error e => ⟨.error e, some dist.dataBytes, []⟩
              | .ok bytes => ⟨.ok (), some bytes, []⟩
  | _ => ⟨.error .NotEnoughAccountKeys, none, []⟩

/-- Model of `process_fund_distribution` from `processor.rs`, with checks in source
order: source signer, dist owner, SPL program id, token-account owners,
unpack, PDA re-derivation and byte comparison, transfer CPI, checked add,
re-pack. -/
def process_fund_distribution (derive : DeriveFn) (program_id : Pubkey)
    (accounts : List AccountInfo) (amount : Nat) : ExecResult :=
  match accounts with
  | [] => ⟨.error .NotEnoughAccountKeys, none, []⟩
  | source :: rest =>
    if !source.is_signer then ⟨.error .MissingRequiredSignature, none, []⟩
    else match rest with
    | [] => ⟨.error .NotEnoughAccountKeys, none, []⟩
    | source_token :: rest =>
      match rest with
      | [] => ⟨.error .NotEnoughAccountKeys, none, []⟩
      | dist :: rest =>
        if !cmp_pubkeys program_id dist.owner then
          ⟨.error .IncorrectProgramId, some dist.dataBytes, []⟩
        else match rest with
        | [] => ⟨.error .NotEnoughAccountKeys, some dist.dataBytes, []⟩
        | dist_token :: rest =>
          match rest with
          | [] => ⟨.error .NotEnoughAccountKeys, some dist.dataBytes, []⟩
          | token_program :: _rest =>
            if !check_program_account token_program.key then
              ⟨.error .IncorrectProgramId, some dist.dataBytes, []⟩
            else if !cmp_pubkeys source_token.owner token_program.key then
              ⟨.error .InvalidArgument, some dist.dataBytes, []⟩
            else if !cmp_pubkeys dist_token.owner token_program.key then
              ⟨.error .InvalidArgument, some dist.dataBytes, []⟩
            else match Distribution.unpack dist.dataBytes with
            | .error e => ⟨.error e, some dist.dataBytes, []⟩
            | .ok d =>
              match d.data.pda_seed.create_pubkey derive program_id with
              | .error e => ⟨.error e, some dist.dataBytes, []⟩
              | .ok pda_pubkey =>
                if !cmp_pubkeys dist.key pda_pubkey then
                  ⟨.error .InvalidAccountData, some dist.dataBytes, []⟩
                else
                  let t : Transfer := ⟨token_program.key, source_token.key,
                    dist_token.key, source.key, amount⟩
                  match d.record_funded_amount amount with
                  | .error e => ⟨.error e, some dist.dataBytes, [t]⟩
                  | .ok d =>
                    match d.pack dist.dataBytes.length with
                    | .error e => ⟨.error e, some dist.dataBytes, [t]⟩
                    | .ok bytes => ⟨.ok (), some bytes, [t]⟩

/-- Model of `process_set_dist_authority` from `processor.rs`: owner check, signer
check, unpack, stored-authority comparison, update, re-pack.  (The source
never re-derives the PDA here.) -/
def process_set_dist_authority (program_id : Pubkey)
    (accounts : List AccountInfo) (new_dist_authority : Pubkey) : ExecResult :=
  match accounts with
  | [] => ⟨.error .NotEnoughAccountKeys, none, []⟩
  | dist :: rest =>
    if !cmp_pubkeys program_id dist.owner then
      ⟨.error .IncorrectProgramId, some dist.dataBytes, []⟩
    else match rest with
    | [] => ⟨.error .NotEnoughAccountKeys, some dist.dataBytes, []⟩
    | dist_authority :: _rest =>
      if !dist_authority.is_signer then
        ⟨.error .MissingRequiredSignature, some dist.dataBytes, []⟩
      else match Distribution.unpack dist.dataBytes with
      | .error e => ⟨.error e, some dist.dataBytes, []⟩
      | .ok d =>
        if !cmp_pubkeys d.data.dist_authority dist_authority.key then
          ⟨.error (distErr .UnauthorizedDistAuthority), some dist.dataBytes, []⟩
        else
          let d := d.set_dist_authority new_dist_authority
          match d.pack dist.dataBytes.length with
          | .error e => ⟨.error e, some dist.dataBytes, []⟩
          | .ok bytes => ⟨.ok (), some bytes, []⟩

/-- Model of `process_begin_distribution` from `processor.rs`: owner check, signer
check, unpack, stored-authority comparison, `has_started` gate, set
`num_recipients`, re-pack.  (The source never re-derives the PDA here.) -/
def process_begin_distribution (program_id : Pubkey)
    (accounts : List AccountInfo) (num_recipients : Nat) : ExecResult :=
  match accounts with
  | [] => ⟨.error .NotEnoughAccountKeys, none, []⟩
  | dist :: rest =>
    if !cmp_pubkeys program_id dist.owner then
      ⟨.error .IncorrectProgramId, some dist.dataBytes, []⟩
    else match rest with
    | [] => ⟨.error .NotEnoughAccountKeys, some dist.dataBytes, []⟩
    | dist_authority :: _rest =>
      if !dist_authority.is_signer then
        ⟨.error .MissingRequiredSignature, some dist.dataBytes, []⟩
      else match Distribution.unpack dist.dataBytes with
      | .error e => ⟨.error e, some dist.dataBytes, []⟩
      | .ok d =>
        if !cmp_pubkeys d.data.dist_authority dist_authority.key then
          ⟨.error (distErr .UnauthorizedDistAuthority), some dist.dataBytes, []⟩
        else if d.has_started then
          ⟨.error (distErr .DistributionAlreadyStarted), some dist.dataBytes, []⟩
        else
          let d := d.set_num_recipients num_recipients
          match d.pack dist.dataBytes.length with
          | .error e => ⟨.error e, some dist.dataBytes, []⟩
          | .ok bytes => ⟨.ok (), some bytes, []⟩

/-- The `for recipient_token_account_info in accounts_iter` loop of
`process_distribute`: per recipient, capacity check first
(`sent_recipients >= max_recipients` fails with `TooManyRecipients`), then
the recipient-owner check, then the transfer CPI signed with the stored
seeds, then `record_sent_recipient`.  Returns the final record (or the
error) together with the transfers issued. -/
def distributeLoop (token_program_key dist_token_key dist_key : Pubkey)
    (share : Nat) :
    List AccountInfo → Distribution → Except PErr Distribution × List Transfer
  | [], d => (.ok d, [])
  | recipient :: rest, d =>
    if d.data.sent_recipients ≥ d.data.max_recipients then
      (.error (distErr .TooManyRecipients), [])
    else if !cmp_pubkeys recipient.owner token_program_key then
      (.error .InvalidArgument, [])
    else
      let t : Transfer := ⟨token_program_key, dist_token_key, recipient.key,
        dist_key, share⟩
      let res := distributeLoop token_program_key dist_token_key dist_key share
        rest (d.record_sent_recipient recipient.key)
      (res.1, t :: res.2)

/-- Model of `process_distribute` from `processor.rs`: owner check, signer check,
SPL program id check, unpack, stored-authority comparison, then the
recipient loop over the remaining accounts, then re-pack.  (The source
never compares the account key against a re-derived PDA; it only uses the
stored seeds to sign the transfer CPIs.  The trailing
`if sent >= max {}` of the source is a no-op and is omitted.) -/
def process_distribute (program_id : Pubkey) (accounts : List AccountInfo) :
    ExecResult :=
  match accounts with
  | [] => ⟨.error .NotEnoughAccountKeys, none, []⟩
  | dist :: rest =>
    if !cmp_pubkeys program_id dist.owner then
      ⟨.error .IncorrectProgramId, some dist.dataBytes, []⟩
    else match rest with
    | [] => ⟨.error .NotEnoughAccountKeys, some dist.dataBytes, []⟩
    | dist_authority :: rest =>
      if !dist_authority.is_signer then
        ⟨.error .MissingRequiredSignature, some dist.dataBytes, []⟩
      else match rest with
      | [] => ⟨.error .NotEnoughAccountKeys, some dist.dataBytes, []⟩
      | token_program :: rest =>
        if !check_program_account token_program.key then
          ⟨.error .IncorrectProgramId, some dist.dataBytes, []⟩
        else match rest with
        | [] => ⟨.error .NotEnoughAccountKeys, some dist.dataBytes, []⟩
        | dist_token :: recipients =>
          match Distribution.unpack dist.dataBytes with
          | .error e => ⟨.error e, some dist.dataBytes, []⟩
          | .ok d =>
            if !cmp_pubkeys d.data.dist_authority dist_authority.key then
              ⟨.error (distErr .UnauthorizedDistAuthority), some dist.dataBytes, []⟩
            else
              let share := d.recipient_share
              match distributeLoop token_program.key dist_token.key dist.key
                share recipients d with
              | (.error e, ts) => ⟨.error e, some dist.dataBytes, ts⟩
              | (.ok d, ts) =>
                match d.pack dist.dataBytes.length with
                | .error e => ⟨.error e, some dist.dataBytes, ts⟩
                | .ok bytes => ⟨.ok (), some bytes, ts⟩

theorem encodeU16_length (x : Nat) : (encodeU16 x).length = 2 := rfl

theorem encodeU64_length (x : Nat) : (encodeU64 x).length = 8 := rfl

theorem decode_encodeU16 (x : Nat) (h : x < U16_MOD) :
    decodeU16 (encodeU16 x) = x := by
  simp only [U16_MOD] at h
  simp [decodeU16, encodeU16]
  omega

theorem decode_encodeU64 (x : Nat) (h : x < U64_MOD) :
    decodeU64 (encodeU64 x) = x := by
  simp only [U64_MOD] at h
  simp [decodeU64, encodeU64]
  omega

theorem readBytes_exact (n : Nat) (l rest : List Nat) (h : l.length = n) :
    readBytes n (l ++ rest) = .ok (l, rest) := by
  subst h
  simp [readBytes, List.take_left, List.drop_left]

/-- Borsh deserialization inverts serialization on any well-formed V1
record. -/
theorem try_from_slice_serialize (d : Distribution) (h : ValidV1 d) :
    Distribution.try_from_slice (serializeDistribution d) = .ok d := by
  obtain ⟨hv, hs, hp, hb, ha, ht, hmax, hnum, hfund, hsent⟩ := h
  have h1 : serializeDistribution d =
      [d.version % 256] ++ (d.data.pda_seed.seed ++ (d.data.pda_seed.project_name ++
      ([d.data.pda_seed.bump % 256] ++ (d.data.dist_authority ++ (d.data.token ++
      (encodeU16 d.data.max_recipients ++ (encodeU16 d.data.num_recipients ++
      (encodeU64 d.data.funded_amount ++
      (encodeU16 d.data.sent_recipients ++ []))))))))) := by
    simp [serializeDistribution]
  rw [Distribution.try_from_slice, h1]
  simp only [readBytes_exact 1 [d.version % 256] _ rfl,
    readBytes_exact PUBKEY_BYTES d.data.pda_seed.seed _ hs,
    readBytes_exact PUBKEY_BYTES d.data.pda_seed.project_name _ hp,
    readBytes_exact 1 [d.data.pda_seed.bump % 256] _ rfl,
    readBytes_exact PUBKEY_BYTES d.data.dist_authority _ ha,
    readBytes_exact PUBKEY_BYTES d.data.token _ ht,
    readBytes_exact 2 (encodeU16 d.data.max_recipients) _ rfl,
    readBytes_exact 2 (encodeU16 d.data.num_recipients) _ rfl,
    readBytes_exact 8 (encodeU64 d.data.funded_amount) _ rfl,
    readBytes_exact 2 (encodeU16 d.data.sent_recipients) _ rfl,
    bind, Except.bind]
  simp [decode_encodeU16 _ hmax, decode_encodeU16 _ hnum,
    decode_encodeU16 _ hsent, decode_encodeU64 _ hfund,
    Nat.mod_eq_of_lt hb, hv, List.getD]
  have hver : VERSION_1 % 256 = d.version := by
    rw [hv]
    decide
  rw [hver]

theorem serializeDistribution_length (d : Distribution) (h : ValidV1 d) :
    (serializeDistribution d).length = DISTRIBUTION_SIZE := by
  obtain ⟨hv, hs, hp, hb, ha, ht, _⟩ := h
  simp [serializeDistribution, encodeU16, encodeU64, hs, hp, ha, ht,
    DISTRIBUTION_SIZE, DISTRIBUTION_V1_SIZE, PDA_SEED_SIZE, PUBKEY_BYTES]

/-- Property: `unpack_from_slice` inverts serialization on any well-formed V1
record. -/
theorem unpack_from_slice_serialize (d : Distribution) (h : ValidV1 d) :
    Distribution.unpack_from_slice (serializeDistribution d) = .ok d := by
  have h2 := try_from_slice_serialize d h
  have hv := h.1
  have hc : serializeDistribution d = VERSION_1 :: (serializeDistribution d).tail := by
    simp [serializeDistribution, hv, VERSION_1]
  rw [hc] at h2 ⊢
  rw [Distribution.unpack_from_slice]
  simpa [VERSION_1, UNINITIALIZED_VERSION] using h2

/-- Property: `Pack::unpack` inverts serialization on any well-formed V1 record. -/
theorem unpack_serialize (d : Distribution) (h : ValidV1 d) :
    Distribution.unpack (serializeDistribution d) = .ok d := by
  rw [Distribution.unpack, Distribution.unpack_unchecked,
    if_neg (by simp [serializeDistribution_length d h]),
    unpack_from_slice_serialize d h]
  simp [Distribution.is_initialized, h.1, VERSION_1, UNINITIALIZED_VERSION,
    bind, Except.bind, pure, Except.pure]

/-- Property: `Pack::pack` succeeds whenever the destination is a region previously
produced for a well-formed record. -/
theorem pack_serialize (d e : Distribution) (h : ValidV1 e) :
    Distribution.pack d (serializeDistribution e).length =
      .ok (serializeDistribution d) := by
  rw [Distribution.pack, if_neg (by simp [serializeDistribution_length e h])]

/-- Characterization of a successful `FundDistribution`: with a signing
source, correct owners, a validly packed record, a matching re-derived PDA
and no `u64` overflow, the handler issues exactly one pull transfer and
re-packs the record with `funded_amount` increased by `amount`. -/
theorem fund_ok_run (derive : DeriveFn) (program_id : Pubkey)
    (source source_token dist dist_token token_program : AccountInfo)
    (amount : Nat) (d : Distribution)
    (hsig : source.is_signer = true)
    (hown : program_id = dist.owner)
    (htp : token_program.key = splTokenId)
    (hso : source_token.owner = token_program.key)
    (hdo : dist_token.owner = token_program.key)
    (hdata : dist.dataBytes = serializeDistribution d)
    (hvalid : ValidV1 d)
    (hder : derive d.data.pda_seed program_id = some dist.key)
    (hov : d.data.funded_amount + amount < U64_MOD) :
    process_fund_distribution derive program_id
      [source, source_token, dist, dist_token, token_program] amount =
      ⟨.ok (), some (serializeDistribution
        { d with data := { d.data with
          funded_amount := d.data.funded_amount + amount } }),
        [⟨token_program.key, source_token.key, dist_token.key, source.key,
          amount⟩]⟩ := by
  have hder2 : derive d.data.pda_seed dist.owner = some dist.key := by
    rw [← hown]
    exact hder
  simp [process_fund_distribution, hsig, hown, htp, hso, hdo, hdata,
    cmp_pubkeys, check_program_account, unpack_serialize d hvalid,
    PdaSeed.create_pubkey, hder2, Distribution.record_funded_amount,
    hov, pack_serialize _ d hvalid]

/-- Property: `FundDistribution` with a re-derived PDA that does not byte-match the
supplied distribution account fails with `InvalidAccountData` before any
transfer and leaves the record bytes unchanged. -/
theorem fund_pda_mismatch_run (derive : DeriveFn) (program_id : Pubkey)
    (source source_token dist dist_token token_program : AccountInfo)
    (amount : Nat) (d : Distribution) (k : Pubkey)
    (hsig : source.is_signer = true)
    (hown : program_id = dist.owner)
    (htp : token_program.key = splTokenId)
    (hso : source_token.owner = token_program.key)
    (hdo : dist_token.owner = token_program.key)
    (hdata : dist.dataBytes = serializeDistribution d)
    (hvalid : ValidV1 d)
    (hder : derive d.data.pda_seed program_id = some k)
    (hne : dist.key ≠ k) :
    process_fund_distribution derive program_id
      [source, source_token, dist, dist_token, token_program] amount =
      ⟨.error .InvalidAccountData, some dist.dataBytes, []⟩ := by
  have hder2 : derive d.data.pda_seed dist.owner = some k := by
    rw [← hown]
    exact hder
  simp [process_fund_distribution, hsig, hown, htp, hso, hdo, hdata,
    cmp_pubkeys, check_program_account, unpack_serialize d hvalid,
    PdaSeed.create_pubkey, hder2, hne]

/-- Property: `FundDistribution` whose checked add would overflow `u64` aborts with a
panic (`checked_add(..).unwrap()`), without re-packing the record. -/
theorem fund_overflow_run (derive : DeriveFn) (program_id : Pubkey)
    (source source_token dist dist_token token_program : AccountInfo)
    (amount : Nat) (d : Distribution)
    (hsig : source.is_signer = true)
    (hown : program_id = dist.owner)
    (htp : token_program.key = splTokenId)
    (hso : source_token.owner = token_program.key)
    (hdo : dist_token.owner = token_program.key)
    (hdata : dist.dataBytes = serializeDistribution d)
    (hvalid : ValidV1 d)
    (hder : derive d.data.pda_seed program_id = some dist.key)
    (hov : U64_MOD ≤ d.data.funded_amount + amount) :
    process_fund_distribution derive program_id
      [source, source_token, dist, dist_token, token_program] amount =
      ⟨.error .Panic, some dist.dataBytes,
        [⟨token_program.key, source_token.key, dist_token.key, source.key,
          amount⟩]⟩ := by
  have hder2 : derive d.data.pda_seed dist.owner = some dist.key := by
    rw [← hown]
    exact hder
  simp [process_fund_distribution, hsig, hown, htp, hso, hdo, hdata,
    cmp_pubkeys, check_program_account, unpack_serialize d hvalid,
    PdaSeed.create_pubkey, hder2, Distribution.record_funded_amount,
    Nat.not_lt.mpr hov]

/-- Property: `SetDistAuthority` with a signer that does not match the stored
authority fails with `UnauthorizedDistAuthority`, bytes unchanged. -/
theorem set_dist_authority_unauthorized_run (program_id : Pubkey)
    (dist auth : AccountInfo) (new_dist_authority : Pubkey) (d : Distribution)
    (hown : program_id = dist.owner)
    (hsig : auth.is_signer = true)
    (hdata : dist.dataBytes = serializeDistribution d)
    (hvalid : ValidV1 d)
    (hne : d.data.dist_authority ≠ auth.key) :
    process_set_dist_authority program_id [dist, auth] new_dist_authority =
      ⟨.error (distErr .UnauthorizedDistAuthority), some dist.dataBytes, []⟩ := by
  simp [process_set_dist_authority, hown, hsig, hdata, cmp_pubkeys,
    unpack_serialize d hvalid, hne]

/-- Property: `BeginDistribution` with a signer that does not match the stored
authority fails with `UnauthorizedDistAuthority`, bytes unchanged. -/
theorem begin_unauthorized_run (program_id : Pubkey)
    (dist auth : AccountInfo) (num_recipients : Nat) (d : Distribution)
    (hown : program_id = dist.owner)
    (hsig : auth.is_signer = true)
    (hdata : dist.dataBytes = serializeDistribution d)
    (hvalid : ValidV1 d)
    (hne : d.data.dist_authority ≠ auth.key) :
    process_begin_distribution program_id [dist, auth] num_recipients =
      ⟨.error (distErr .UnauthorizedDistAuthority), some dist.dataBytes, []⟩ := by
  simp [process_begin_distribution, hown, hsig, hdata, cmp_pubkeys,
    unpack_serialize d hvalid, hne]

/-- Property: `Distribute` with a signer that does not match the stored authority
fails with `UnauthorizedDistAuthority` before any transfer, bytes
unchanged. -/
theorem distribute_unauthorized_run (program_id : Pubkey)
    (dist auth token_program dist_token : AccountInfo)
    (recipients : List AccountInfo) (d : Distribution)
    (hown : program_id = dist.owner)
    (hsig : auth.is_signer = true)
    (htp : token_program.key = splTokenId)
    (hdata : dist.dataBytes = serializeDistribution d)
    (hvalid : ValidV1 d)
    (hne : d.data.dist_authority ≠ auth.key) :
    process_distribute program_id
      ([dist, auth, token_program, dist_token] ++ recipients) =
      ⟨.error (distErr .UnauthorizedDistAuthority), some dist.dataBytes, []⟩ := by
  simp [process_distribute, hown, hsig, htp, hdata, cmp_pubkeys,
    check_program_account, unpack_serialize d hvalid, hne]

/-- Successful `BeginDistribution`: authorized signer on a not-yet-started
record locks `num_recipients` and re-packs. -/
theorem begin_ok_run (program_id : Pubkey) (dist auth : AccountInfo)
    (num_recipients : Nat) (d : Distribution)
    (hown : program_id = dist.owner)
    (hsig : auth.is_signer = true)
    (hdata : dist.dataBytes = serializeDistribution d)
    (hvalid : ValidV1 d)
    (hauth : d.data.dist_authority = auth.key)
    (hstart : d.data.num_recipients = 0) :
    process_begin_distribution program_id [dist, auth] num_recipients =
      ⟨.ok (), some (serializeDistribution (d.set_num_recipients num_recipients)),
        []⟩ := by
  simp [process_begin_distribution, hown, hsig, hdata, cmp_pubkeys,
    unpack_serialize d hvalid, hauth, Distribution.has_started, hstart,
    pack_serialize _ d hvalid, Distribution.set_num_recipients]

/-- Property: `BeginDistribution` on a record whose `num_recipients` is already
positive fails with `DistributionAlreadyStarted`, bytes unchanged. -/
theorem begin_started_run (program_id : Pubkey) (dist auth : AccountInfo)
    (num_recipients : Nat) (d : Distribution)
    (hown : program_id = dist.owner)
    (hsig : auth.is_signer = true)
    (hdata : dist.dataBytes = serializeDistribution d)
    (hvalid : ValidV1 d)
    (hauth : d.data.dist_authority = auth.key)
    (hpos : 0 < d.data.num_recipients) :
    process_begin_distribution program_id [dist, auth] num_recipients =
      ⟨.error (distErr .DistributionAlreadyStarted), some dist.dataBytes, []⟩ := by
  simp [process_begin_distribution, hown, hsig, hdata, cmp_pubkeys,
    unpack_serialize d hvalid, hauth, Distribution.has_started, hpos]

/-- The distribute loop on a non-empty recipient list with the counter
already at (or past) capacity fails immediately with `TooManyRecipients`,
issuing no transfer. -/
theorem distributeLoop_capacity (tk dtk dk : Pubkey) (share : Nat)
    (r : AccountInfo) (rest : List AccountInfo) (d : Distribution)
    (h : d.data.max_recipients ≤ d.data.sent_recipients) :
    distributeLoop tk dtk dk share (r :: rest) d =
      (.error (distErr .TooManyRecipients), []) := by
  simp [distributeLoop, h]

/-- A successful distribute loop never pushes `sent_recipients` past
`max_recipients`, and leaves `max_recipients` and `num_recipients`
untouched. -/
theorem distributeLoop_ok_sent_le (tk dtk dk : Pubkey) (share : Nat) :
    ∀ (recipients : List AccountInfo) (d d2 : Distribution)
      (ts : List Transfer),
    d.data.max_recipients < U16_MOD →
    d.data.sent_recipients ≤ d.data.max_recipients →
    distributeLoop tk dtk dk share recipients d = (.ok d2, ts) →
    d2.data.max_recipients = d.data.max_recipients ∧
    d2.data.sent_recipients ≤ d.data.max_recipients := by
  intro recipients
  induction recipients with
  | nil =>
    intro d d2 ts hmax hle h
    rw [distributeLoop] at h
    obtain ⟨h1, -⟩ := Prod.mk.injEq .. ▸ h
    cases h1
    exact ⟨rfl, hle⟩
  | cons r rest ih =>
    intro d d2 ts hmax hle h
    rw [distributeLoop] at h
    by_cases hcap : d.data.sent_recipients ≥ d.data.max_recipients
    · simp [hcap] at h
    · rw [if_neg hcap] at h
      by_cases howner : cmp_pubkeys r.owner tk
      · rw [if_neg (by simp [howner])] at h
        have hlt : d.data.sent_recipients < d.data.max_recipients :=
          Nat.lt_of_not_le hcap
        have hmax1 : d.data.max_recipients < 2 ^ 16 := hmax
        have hstep : (d.record_sent_recipient r.key).data.sent_recipients =
            d.data.sent_recipients + 1 := by
          simp [Distribution.record_sent_recipient, U16_MOD]
          omega
        have hmax2 : (d.record_sent_recipient r.key).data.max_recipients =
            d.data.max_recipients := by
          simp [Distribution.record_sent_recipient]
        obtain ⟨hres, -⟩ := Prod.mk.injEq .. ▸ h
        have := ih (d.record_sent_recipient r.key) d2 _ (by rw [hmax2]; exact hmax)
          (by rw [hstep, hmax2]; omega)
          (by rw [← hres])
        rw [hmax2] at this
        exact this
      · simp [howner] at h

/-- Full characterization of a distribute loop that stays strictly within
capacity over token-program-owned recipients: it succeeds, issues one
transfer of `share` per recipient in order, and adds the batch size to
`sent_recipients`. -/
theorem distributeLoop_all_ok (tk dtk dk : Pubkey) (share : Nat) :
    ∀ (recipients : List AccountInfo) (d : Distribution),
    d.data.max_recipients < U16_MOD →
    d.data.sent_recipients + recipients.length ≤ d.data.max_recipients →
    (∀ r ∈ recipients, r.owner = tk) →
    distributeLoop tk dtk dk share recipients d =
      (.ok { d with data := { d.data with
        sent_recipients := d.data.sent_recipients + recipients.length } },
       recipients.map fun r => ⟨tk, dtk, r.key, dk, share⟩) := by
  intro recipients
  induction recipients with
  | nil =>
    intro d hmax hcap howners
    simp [distributeLoop]
  | cons r rest ih =>
    intro d hmax hcap howners
    have hmax1 : d.data.max_recipients < 2 ^ 16 := hmax
    have hlen : (r :: rest).length = rest.length + 1 := by simp
    have hlt : d.data.sent_recipients < d.data.max_recipients := by
      rw [hlen] at hcap
      omega
    have howner : r.owner = tk := howners r (by simp)
    rw [distributeLoop, if_neg (Nat.not_le.mpr hlt),
      if_neg (by simp [cmp_pubkeys, howner])]
    have hsent : (d.record_sent_recipient r.key).data.sent_recipients =
        d.data.sent_recipients + 1 := by
      simp [Distribution.record_sent_recipient, U16_MOD]
      omega
    have hrec := ih (d.record_sent_recipient r.key)
      (by simp [Distribution.record_sent_recipient]; exact hmax)
      (by simp [Distribution.record_sent_recipient, U16_MOD]; omega)
      (fun x hx => howners x (by simp [hx]))
    rw [hrec]
    simp [Distribution.record_sent_recipient, U16_MOD, howner]
    omega

/-- Property: `Distribute` success path: when the preliminary checks pass and the
recipient loop succeeds, the handler re-packs the loop's final record and
reports the loop's transfers. -/
theorem distribute_run_ok (program_id : Pubkey)
    (dist auth token_program dist_token : AccountInfo)
    (recipients : List AccountInfo) (d d2 : Distribution) (ts : List Transfer)
    (hown : program_id = dist.owner)
    (hsig : auth.is_signer = true)
    (htp : token_program.key = splTokenId)
    (hdata : dist.dataBytes = serializeDistribution d)
    (hvalid : ValidV1 d)
    (hauth : d.data.dist_authority = auth.key)
    (hloop : distributeLoop token_program.key dist_token.key dist.key
      d.recipient_share recipients d = (.ok d2, ts)) :
    process_distribute program_id
      ([dist, auth, token_program, dist_token] ++ recipients) =
      ⟨.ok (), some (serializeDistribution d2), ts⟩ := by
  rw [htp] at hloop
  simp [process_distribute, hown, hsig, htp, hdata, cmp_pubkeys,
    check_program_account, unpack_serialize d hvalid, hauth, hloop,
    pack_serialize _ d hvalid]

/-- Property: `Distribute` failure path: when the preliminary checks pass but the
recipient loop fails, the handler propagates the loop's error and leaves
the record bytes unchanged. -/
theorem distribute_run_err (program_id : Pubkey)
    (dist auth token_program dist_token : AccountInfo)
    (recipients : List AccountInfo) (d : Distribution) (e : PErr)
    (ts : List Transfer)
    (hown : program_id = dist.owner)
    (hsig : auth.is_signer = true)
    (htp : token_program.key = splTokenId)
    (hdata : dist.dataBytes = serializeDistribution d)
    (hvalid : ValidV1 d)
    (hauth : d.data.dist_authority = auth.key)
    (hloop : distributeLoop token_program.key dist_token.key dist.key
      d.recipient_share recipients d = (.error e, ts)) :
    process_distribute program_id
      ([dist, auth, token_program, dist_token] ++ recipients) =
      ⟨.error e, some dist.dataBytes, ts⟩ := by
  rw [htp] at hloop
  simp [process_distribute, hown, hsig, htp, hdata, cmp_pubkeys,
    check_program_account, unpack_serialize d hvalid, hauth, hloop]

/-- A successful distribute loop changes nothing but `sent_recipients`,
which stays within `max_recipients`. -/
theorem distributeLoop_ok_shape (tk dtk dk : Pubkey) (share : Nat) :
    ∀ (recipients : List AccountInfo) (d d2 : Distribution)
      (ts : List Transfer),
    d.data.max_recipients < U16_MOD →
    d.data.sent_recipients ≤ d.data.max_recipients →
    distributeLoop tk dtk dk share recipients d = (.ok d2, ts) →
    ∃ n, n ≤ d.data.max_recipients ∧
      d2 = { d with data := { d.data with sent_recipients := n } } := by
  intro recipients
  induction recipients with
  | nil =>
    intro d d2 ts hmax hle h
    rw [distributeLoop] at h
    obtain ⟨h1, -⟩ := Prod.mk.injEq .. ▸ h
    cases h1
    exact ⟨d.data.sent_recipients, hle, rfl⟩
  | cons r rest ih =>
    intro d d2 ts hmax hle h
    rw [distributeLoop] at h
    by_cases hcap : d.data.sent_recipients ≥ d.data.max_recipients
    · simp [hcap] at h
    · rw [if_neg hcap] at h
      by_cases howner : cmp_pubkeys r.owner tk
      · rw [if_neg (by simp [howner])] at h
        have hlt : d.data.sent_recipients < d.data.max_recipients :=
          Nat.lt_of_not_le hcap
        have hmax1 : d.data.max_recipients < 2 ^ 16 := hmax
        have hrec : d.record_sent_recipient r.key =
            { d with data := { d.data with
              sent_recipients := d.data.sent_recipients + 1 } } := by
          simp [Distribution.record_sent_recipient, U16_MOD]
          omega
        obtain ⟨hres, -⟩ := Prod.mk.injEq .. ▸ h
        obtain ⟨n, hn, hshape⟩ := ih (d.record_sent_recipient r.key) d2 _
          (by rw [hrec]; exact hmax) (by rw [hrec]; exact hlt) (by rw [← hres])
        rw [hrec] at hn hshape
        exact ⟨n, hn, hshape⟩
      · simp [howner] at h

/-- Spec-level abbreviation: the record with `amount` added to
`funded_amount` (the effect of a successful `record_funded_amount`). -/
def addFunded (d : Distribution) (amount : Nat) : Distribution :=
  { d with data := { d.data with
    funded_amount := d.data.funded_amount + amount } }

/-! Concrete fixtures used by the counterexamples, witnesses and scenario
evaluations. -/

def pkSeed : Pubkey := List.replicate 32 1

def pkProject : Pubkey := List.replicate 32 2

def pkAuthority : Pubkey := List.replicate 32 3

def pkMint : Pubkey := List.replicate 32 4

def pkDistAddr : Pubkey := List.replicate 32 5

def pkRecipient : Pubkey := List.replicate 32 8

def pkProgramId : Pubkey := List.replicate 32 9

def pkOtherSigner : Pubkey := List.replicate 32 10

/-- A stand-in derivation function under which the legitimate record's
seeds derive exactly the fixture distribution address. -/
def sampleDerive : DeriveFn := fun _ _ => some pkDistAddr

/-- A derivation function under which the stored seeds derive an address
different from every fixture account. -/
def mismatchDerive : DeriveFn := fun _ _ => some (List.replicate 32 77)

/-- A well-formed V1 fixture record over the fixture identities. -/
def sampleRecord (maxr numr funded sent : Nat) : Distribution :=
  ⟨VERSION_1, ⟨⟨pkSeed, pkProject, 251⟩, pkAuthority, pkMint,
    maxr, numr, funded, sent⟩⟩

def distAccount (bs : List Nat) : AccountInfo := ⟨pkDistAddr, pkProgramId, false, bs⟩

def authorityAccount : AccountInfo := ⟨pkAuthority, pkProgramId, true, []⟩

def otherSignerAccount : AccountInfo := ⟨pkOtherSigner, pkProgramId, true, []⟩

def tokenProgAccount : AccountInfo := ⟨splTokenId, pkProgramId, false, []⟩

def distTokenAccount : AccountInfo := ⟨List.replicate 32 11, splTokenId, false, []⟩

def recipientAccount : AccountInfo := ⟨pkRecipient, splTokenId, false, []⟩

def sourceAccount : AccountInfo := ⟨List.replicate 32 12, pkProgramId, true, []⟩

def sourceTokenAccount : AccountInfo := ⟨List.replicate 32 13, splTokenId, false, []⟩

def feePayerAccount : AccountInfo := ⟨List.replicate 32 14, pkProgramId, true, []⟩

def systemProgAccount : AccountInfo := ⟨List.replicate 32 15, List.replicate 32 15, false, []⟩

def mintAccount : AccountInfo := ⟨pkMint, splTokenId, false, []⟩

/-- Model of `pack_into_slice` from `state.rs`: the bytes written over the
fixed-size region (the Borsh serialization of the record). -/
def Distribution.pack_into_slice (d : Distribution) : List Nat :=
  serializeDistribution d

/-- C5: the claim says `DistInstruction::unpack` returns `InvalidInstruction`
on any buffer whose remaining length is too short for the tag's fields and
never panics.  The code instead reaches `split_at` with too few bytes and
panics: on the buffer `[1]` (FundDistribution tag with no amount bytes) the
result is a panic, not `InvalidInstruction` — while an unknown tag such as
`[9]` does produce `InvalidInstruction`.  This contradicts the evident
intent (the dead `ok_or(InvalidInstruction)` conversions after each
`split_at`), so the code, not the claim, is wrong. -/
theorem C5_short_buffer_panics :
    DistInstruction.unpack [1] = .error .Panic ∧
    DistInstruction.unpack [1] ≠ .error (distErr .InvalidInstruction) ∧
    DistInstruction.unpack [3] = .error .Panic ∧
    DistInstruction.unpack (0 :: List.replicate 64 0) = .error .Panic ∧
    DistInstruction.unpack [9] = .error (distErr .InvalidInstruction) ∧
    DistInstruction.unpack [] = .error (distErr .InvalidInstruction) := by
  decide

/-- C9: the account-state codec round-trips — `unpack_from_slice` applied
to the bytes `pack_into_slice` writes for any well-formed version-1 record
returns that record, and `unpack_from_slice` on a zero-filled region of the
record's size returns the canonical uninitialized default record with no
error. -/
theorem C9_codec_roundtrip (d : Distribution) (h : ValidV1 d) :
    Distribution.unpack_from_slice d.pack_into_slice = .ok d ∧
    Distribution.unpack_from_slice (List.replicate DISTRIBUTION_SIZE 0) =
      .ok distributionDefault :=
  ⟨unpack_from_slice_serialize d h, by decide⟩

set_option maxRecDepth 40000 in
/-- Witness for C9 at a concrete record. -/
theorem C9_witness :
    ValidV1 (sampleRecord 500 100 1000 7) ∧
    Distribution.unpack_from_slice (sampleRecord 500 100 1000 7).pack_into_slice =
      .ok (sampleRecord 500 100 1000 7) ∧
    Distribution.unpack_from_slice (List.replicate DISTRIBUTION_SIZE 0) =
      .ok distributionDefault :=
  ⟨by decide, C9_codec_roundtrip (sampleRecord 500 100 1000 7) (by decide)⟩

set_option maxRecDepth 40000 in
/-- C2: the claim (and the source's own doc comment "Only one distribution
per recipient is allowed") says a recipient supplied twice is rejected or
skipped the second time.  The code ignores the recipient argument of
`record_sent_recipient` and keeps no per-recipient state: supplying the
same recipient token account twice in one Distribute call issues two
transfers to that same account and counts it twice. -/
theorem C2_duplicate_recipient_paid_twice :
    (process_distribute pkProgramId
      ([distAccount (serializeDistribution (sampleRecord 2 2 10 0)),
        authorityAccount, tokenProgAccount, distTokenAccount] ++
        [recipientAccount, recipientAccount])) =
      ⟨.ok (), some (serializeDistribution (sampleRecord 2 2 10 2)),
        [⟨splTokenId, distTokenAccount.key, pkRecipient, pkDistAddr, 5⟩,
         ⟨splTokenId, distTokenAccount.key, pkRecipient, pkDistAddr, 5⟩]⟩ := by
  decide

set_option maxRecDepth 40000 in
/-- C1 counterexample: the claim says every record-touching instruction
re-derives the address from the stored seeds and rejects a mismatch.
`SetDistAuthority` performs no such comparison: under a derivation function
for which the stored seeds derive an address different from the supplied
account's key, the call still succeeds and replaces the authority. -/
theorem C1_counterexample :
    mismatchDerive (sampleRecord 5 0 0 0).data.pda_seed pkProgramId =
      some (List.replicate 32 77) ∧
    (distAccount (serializeDistribution (sampleRecord 5 0 0 0))).key ≠
      List.replicate 32 77 ∧
    process_set_dist_authority pkProgramId
      [distAccount (serializeDistribution (sampleRecord 5 0 0 0)),
        authorityAccount] pkRecipient =
      ⟨.ok (), some (serializeDistribution
        ((sampleRecord 5 0 0 0).set_dist_authority pkRecipient)), []⟩ := by
  decide

/-- C1 (amended): only `FundDistribution` re-derives the address from the
stored `(seed, project_name, bump)` under the program id and compares it
byte-for-byte against the supplied distribution account, rejecting a
mismatch with `InvalidAccountData` before any state mutation or transfer;
`SetDistAuthority`, `BeginDistribution` and `Distribute` never perform this
re-derivation (they rely only on the account-owner check), as the
counterexample shows. -/
theorem C1_fund_rederives (derive : DeriveFn) (program_id : Pubkey)
    (source source_token dist dist_token token_program : AccountInfo)
    (amount : Nat) (d : Distribution) (k : Pubkey)
    (hsig : source.is_signer = true)
    (hown : program_id = dist.owner)
    (htp : token_program.key = splTokenId)
    (hso : source_token.owner = token_program.key)
    (hdo : dist_token.owner = token_program.key)
    (hdata : dist.dataBytes = serializeDistribution d)
    (hvalid : ValidV1 d)
    (hder : derive d.data.pda_seed program_id = some k)
    (hne : dist.key ≠ k) :
    process_fund_distribution derive program_id
      [source, source_token, dist, dist_token, token_program] amount =
      ⟨.error .InvalidAccountData, some dist.dataBytes, []⟩ :=
  fund_pda_mismatch_run derive program_id source source_token dist dist_token
    token_program amount d k hsig hown htp hso hdo hdata hvalid hder hne

set_option maxRecDepth 40000 in
/-- Witness for C1 at a concrete mismatching derivation. -/
theorem C1_witness :
    process_fund_distribution mismatchDerive pkProgramId
      [sourceAccount, sourceTokenAccount,
        distAccount (serializeDistribution (sampleRecord 5 0 0 0)),
        distTokenAccount, tokenProgAccount] 7 =
      ⟨.error .InvalidAccountData,
        some (serializeDistribution (sampleRecord 5 0 0 0)), []⟩ :=
  C1_fund_rederives mismatchDerive pkProgramId sourceAccount sourceTokenAccount
    (distAccount (serializeDistribution (sampleRecord 5 0 0 0)))
    distTokenAccount tokenProgAccount 7 (sampleRecord 5 0 0 0)
    (List.replicate 32 77) rfl rfl rfl rfl rfl rfl (by decide) rfl (by decide)

set_option maxRecDepth 40000 in
/-- C7 counterexample: the claim says any handler invoked with a signer
that does not match the stored authority fails with
`UnauthorizedDistAuthority`.  `FundDistribution` never compares its signer
to the stored authority: a source signer different from the record's
`dist_authority` funds successfully and the record is mutated. -/
theorem C7_counterexample :
    sourceAccount.key ≠ (sampleRecord 5 0 0 0).data.dist_authority ∧
    sourceAccount.is_signer = true ∧
    process_fund_distribution sampleDerive pkProgramId
      [sourceAccount, sourceTokenAccount,
        distAccount (serializeDistribution (sampleRecord 5 0 0 0)),
        distTokenAccount, tokenProgAccount] 42 =
      ⟨.ok (), some (serializeDistribution (sampleRecord 5 0 42 0)),
        [⟨splTokenId, sourceTokenAccount.key, distTokenAccount.key,
          sourceAccount.key, 42⟩]⟩ := by
  decide

/-- C7 (amended): the three handlers that consult the stored authority —
`SetDistAuthority`, `BeginDistribution` and `Distribute` — fail with
`UnauthorizedDistAuthority` and leave the record bytes unchanged (and issue
no transfer) whenever the supplied signer's key does not byte-equal the
stored `dist_authority`; `InitializeDistribution` and `FundDistribution`
never compare their signer against the stored authority, as the
counterexample shows. -/
theorem C7_authority_gate (program_id : Pubkey)
    (dist auth token_program dist_token : AccountInfo)
    (recipients : List AccountInfo) (new_dist_authority : Pubkey)
    (num_recipients : Nat) (d : Distribution)
    (hown : program_id = dist.owner)
    (hsig : auth.is_signer = true)
    (htp : token_program.key = splTokenId)
    (hdata : dist.dataBytes = serializeDistribution d)
    (hvalid : ValidV1 d)
    (hne : d.data.dist_authority ≠ auth.key) :
    process_set_dist_authority program_id [dist, auth] new_dist_authority =
      ⟨.error (distErr .UnauthorizedDistAuthority), some dist.dataBytes, []⟩ ∧
    process_begin_distribution program_id [dist, auth] num_recipients =
      ⟨.error (distErr .UnauthorizedDistAuthority), some dist.dataBytes, []⟩ ∧
    process_distribute program_id
      ([dist, auth, token_program, dist_token] ++ recipients) =
      ⟨.error (distErr .UnauthorizedDistAuthority), some dist.dataBytes, []⟩ :=
  ⟨set_dist_authority_unauthorized_run program_id dist auth new_dist_authority d
      hown hsig hdata hvalid hne,
    begin_unauthorized_run program_id dist auth num_recipients d
      hown hsig hdata hvalid hne,
    distribute_unauthorized_run program_id dist auth token_program dist_token
      recipients d hown hsig htp hdata hvalid hne⟩

set_option maxRecDepth 40000 in
/-- Witness for C7: a concrete non-authority signer is rejected by all
three authority-gated handlers. -/
theorem C7_witness :
    process_set_dist_authority pkProgramId
      [distAccount (serializeDistribution (sampleRecord 5 0 0 0)),
        otherSignerAccount] pkRecipient =
      ⟨.error (distErr .UnauthorizedDistAuthority),
        some (serializeDistribution (sampleRecord 5 0 0 0)), []⟩ ∧
    process_begin_distribution pkProgramId
      [distAccount (serializeDistribution (sampleRecord 5 0 0 0)),
        otherSignerAccount] 3 =
      ⟨.error (distErr .UnauthorizedDistAuthority),
        some (serializeDistribution (sampleRecord 5 0 0 0)), []⟩ ∧
    process_distribute pkProgramId
      ([distAccount (serializeDistribution (sampleRecord 5 0 0 0)),
        otherSignerAccount, tokenProgAccount, distTokenAccount] ++
        [recipientAccount]) =
      ⟨.error (distErr .UnauthorizedDistAuthority),
        some (serializeDistribution (sampleRecord 5 0 0 0)), []⟩ :=
  C7_authority_gate pkProgramId
    (distAccount (serializeDistribution (sampleRecord 5 0 0 0)))
    otherSignerAccount tokenProgAccount distTokenAccount [recipientAccount]
    pkRecipient 3 (sampleRecord 5 0 0 0) rfl rfl rfl rfl (by decide) (by decide)

set_option maxRecDepth 40000 in
/-- C4 counterexample: the claim says a second `BeginDistribution` always
fails once one call has succeeded.  A first call with `num_recipients = 0`
succeeds (the handler never requires the argument to be positive) yet
leaves the record "not started", so a second call also succeeds. -/
theorem C4_counterexample :
    (process_begin_distribution pkProgramId
      [distAccount (serializeDistribution (sampleRecord 5 0 0 0)),
        authorityAccount] 0).result = .ok () ∧
    process_begin_distribution pkProgramId
      [distAccount ((process_begin_distribution pkProgramId
        [distAccount (serializeDistribution (sampleRecord 5 0 0 0)),
          authorityAccount] 0).distData.getD []), authorityAccount] 7 =
      ⟨.ok (), some (serializeDistribution (sampleRecord 5 7 0 0)), []⟩ := by
  decide

/-- C4 (amended): `BeginDistribution` locks the recipient count only when
the locked value is positive: after one call that set `num_recipients` to a
positive value, any second call (any argument) fails with
`DistributionAlreadyStarted` and leaves the bytes unchanged; but a call
with `num_recipients = 0` succeeds without starting the distribution, so it
can be repeated, as the counterexample shows. -/
theorem C4_begin_locks_once (program_id : Pubkey) (dist auth : AccountInfo)
    (n n2 : Nat) (d : Distribution)
    (hown : program_id = dist.owner)
    (hsig : auth.is_signer = true)
    (hdata : dist.dataBytes = serializeDistribution d)
    (hvalid : ValidV1 d)
    (hauth : d.data.dist_authority = auth.key)
    (hstart : d.data.num_recipients = 0)
    (hn : 0 < n) (hn16 : n < U16_MOD) :
    process_begin_distribution program_id [dist, auth] n =
      ⟨.ok (), some (serializeDistribution (d.set_num_recipients n)), []⟩ ∧
    process_begin_distribution program_id
      [{ dist with dataBytes := serializeDistribution (d.set_num_recipients n) },
        auth] n2 =
      ⟨.error (distErr .DistributionAlreadyStarted),
        some (serializeDistribution (d.set_num_recipients n)), []⟩ := by
  obtain ⟨hv, hs, hp, hb, ha, ht, hmax, hnum, hfund, hsent⟩ := hvalid
  have hvalid2 : ValidV1 (d.set_num_recipients n) :=
    ⟨hv, hs, hp, hb, ha, ht, hmax, hn16, hfund, hsent⟩
  refine ⟨begin_ok_run program_id dist auth n d hown hsig hdata
    ⟨hv, hs, hp, hb, ha, ht, hmax, hnum, hfund, hsent⟩ hauth hstart, ?_⟩
  exact begin_started_run program_id
    { dist with dataBytes := serializeDistribution (d.set_num_recipients n) }
    auth n2 (d.set_num_recipients n) hown hsig rfl hvalid2 hauth hn

set_option maxRecDepth 40000 in
/-- Witness for C4 at a concrete record: lock to 3, then a second call
with 9 is rejected. -/
theorem C4_witness :
    process_begin_distribution pkProgramId
      [distAccount (serializeDistribution (sampleRecord 5 0 0 0)),
        authorityAccount] 3 =
      ⟨.ok (), some (serializeDistribution
        ((sampleRecord 5 0 0 0).set_num_recipients 3)), []⟩ ∧
    process_begin_distribution pkProgramId
      [{ distAccount (serializeDistribution (sampleRecord 5 0 0 0)) with
          dataBytes := serializeDistribution
            ((sampleRecord 5 0 0 0).set_num_recipients 3) },
        authorityAccount] 9 =
      ⟨.error (distErr .DistributionAlreadyStarted),
        some (serializeDistribution
          ((sampleRecord 5 0 0 0).set_num_recipients 3)), []⟩ :=
  C4_begin_locks_once pkProgramId
    (distAccount (serializeDistribution (sampleRecord 5 0 0 0)))
    authorityAccount 3 9 (sampleRecord 5 0 0 0) rfl rfl rfl (by decide) rfl
    rfl (by decide) (by decide)

/-! End-to-end scenario of §8 of the spec: initialize with
`max_recipients = 500`, fund 1000, begin with `num_recipients = 100`, then
five Distribute batches of 20 recipients each. -/

def scenarioBytes0 : List Nat :=
  (process_initialize_distribution sampleDerive pkProgramId
    [feePayerAccount, systemProgAccount, tokenProgAccount, mintAccount,
      distAccount (List.replicate DISTRIBUTION_SIZE 0)]
    pkSeed pkProject 251 500 pkAuthority).distData.getD []

def scenarioBytes1 : List Nat :=
  (process_fund_distribution sampleDerive pkProgramId
    [sourceAccount, sourceTokenAccount, distAccount scenarioBytes0,
      distTokenAccount, tokenProgAccount] 1000).distData.getD []

def scenarioBytes2 : List Nat :=
  (process_begin_distribution pkProgramId
    [distAccount scenarioBytes1, authorityAccount] 100).distData.getD []

/-- One Distribute call on the given record bytes with `n` recipient token
accounts. -/
def scenarioStep (bs : List Nat) (n : Nat) : ExecResult :=
  process_distribute pkProgramId
    ([distAccount bs, authorityAccount, tokenProgAccount, distTokenAccount] ++
      List.replicate n recipientAccount)

def scenarioBytes3 : List Nat := (scenarioStep scenarioBytes2 20).distData.getD []

def scenarioBytes4 : List Nat := (scenarioStep scenarioBytes3 20).distData.getD []

def scenarioBytes5 : List Nat := (scenarioStep scenarioBytes4 20).distData.getD []

def scenarioBytes6 : List Nat := (scenarioStep scenarioBytes5 20).distData.getD []

def scenarioBytes7 : List Nat := (scenarioStep scenarioBytes6 20).distData.getD []

set_option maxRecDepth 100000 in
/-- C3 counterexample: after the exact scenario of the claim
(`max_recipients = 500`, funded 1000, `num_recipients = 100`, five
successful batches of 20 so that `sent_recipients = 100`), the next
Distribute call with a non-empty recipient list does NOT fail with
`TooManyRecipients` — it succeeds, because the capacity check compares
`sent_recipients` against `max_recipients`, not `num_recipients`. -/
theorem C3_counterexample :
    Distribution.unpack scenarioBytes7 = .ok (sampleRecord 500 100 1000 100) ∧
    (scenarioStep scenarioBytes7 1).result = .ok () ∧
    (scenarioStep scenarioBytes7 1).result ≠
      .error (distErr .TooManyRecipients) := by
  decide

set_option maxRecDepth 100000 in
/-- C3 (amended): in the scenario, after five successful batches of 20
(`sent_recipients = 100` and `recipient_share = 10`), the next Distribute
call with a non-empty recipient list succeeds and advances
`sent_recipients` to 101; `TooManyRecipients` fires only when
`sent_recipients` reaches `max_recipients = 500` (not
`num_recipients = 100`). -/
theorem C3_scenario :
    Distribution.unpack scenarioBytes3 = .ok (sampleRecord 500 100 1000 20) ∧
    Distribution.unpack scenarioBytes7 = .ok (sampleRecord 500 100 1000 100) ∧
    (sampleRecord 500 100 1000 100).recipient_share = 10 ∧
    scenarioStep scenarioBytes7 1 =
      ⟨.ok (), some (serializeDistribution (sampleRecord 500 100 1000 101)),
        [⟨splTokenId, distTokenAccount.key, pkRecipient, pkDistAddr, 10⟩]⟩ ∧
    (scenarioStep (serializeDistribution (sampleRecord 500 100 1000 500)) 1).result =
      .error (distErr .TooManyRecipients) := by
  decide

/-- C6: every successful Distribute call starting from
`sent_recipients ≤ max_recipients` re-packs a record that still satisfies
`sent_recipients ≤ max_recipients` (and is again well-formed with the same
`max_recipients`, so the invariant is preserved across any sequence of
successful calls by induction); and a Distribute call made once
`sent_recipients = max_recipients` with at least one recipient account
fails with `TooManyRecipients`, issuing no transfer and leaving the packed
record bytes unchanged. -/
theorem C6_capacity_invariant (program_id : Pubkey)
    (dist auth token_program dist_token : AccountInfo)
    (recipients : List AccountInfo) (d : Distribution)
    (hown : program_id = dist.owner)
    (hsig : auth.is_signer = true)
    (htp : token_program.key = splTokenId)
    (hdata : dist.dataBytes = serializeDistribution d)
    (hvalid : ValidV1 d)
    (hauth : d.data.dist_authority = auth.key)
    (hle : d.data.sent_recipients ≤ d.data.max_recipients) :
    ((process_distribute program_id
        ([dist, auth, token_program, dist_token] ++ recipients)).result =
        .ok () →
      ∃ d2, (process_distribute program_id
          ([dist, auth, token_program, dist_token] ++ recipients)).distData =
          some (serializeDistribution d2) ∧ ValidV1 d2 ∧
        d2.data.sent_recipients ≤ d2.data.max_recipients ∧
        d2.data.max_recipients = d.data.max_recipients) ∧
    (d.data.sent_recipients = d.data.max_recipients → recipients ≠ [] →
      process_distribute program_id
        ([dist, auth, token_program, dist_token] ++ recipients) =
        ⟨.error (distErr .TooManyRecipients), some dist.dataBytes, []⟩) := by
  obtain ⟨hv, hs, hp, hb, ha, ht, hmax, hnum, hfund, hsent⟩ := hvalid
  constructor
  · intro hok
    rcases hl : distributeLoop token_program.key dist_token.key dist.key
      d.recipient_share recipients d with ⟨res, ts⟩
    cases res with
    | error e =>
      have hrun := distribute_run_err program_id dist auth token_program
        dist_token recipients d e ts hown hsig htp hdata
        ⟨hv, hs, hp, hb, ha, ht, hmax, hnum, hfund, hsent⟩ hauth hl
      rw [hrun] at hok
      simp at hok
    | ok d2 =>
      have hrun := distribute_run_ok program_id dist auth token_program
        dist_token recipients d d2 ts hown hsig htp hdata
        ⟨hv, hs, hp, hb, ha, ht, hmax, hnum, hfund, hsent⟩ hauth hl
      obtain ⟨n, hn, hshape⟩ := distributeLoop_ok_shape token_program.key
        dist_token.key dist.key d.recipient_share recipients d d2 ts hmax hle hl
      refine ⟨d2, by rw [hrun], ?_, ?_, ?_⟩
      · rw [hshape]
        exact ⟨hv, hs, hp, hb, ha, ht, hmax, hnum, hfund,
          lt_of_le_of_lt hn hmax⟩
      · rw [hshape]
        exact hn
      · rw [hshape]
  · intro heq hne
    cases recipients with
    | nil => exact absurd rfl hne
    | cons r rest =>
      have hcap := distributeLoop_capacity token_program.key dist_token.key
        dist.key d.recipient_share r rest d (by omega)
      exact distribute_run_err program_id dist auth token_program dist_token
        (r :: rest) d (distErr .TooManyRecipients) [] hown hsig htp hdata
        ⟨hv, hs, hp, hb, ha, ht, hmax, hnum, hfund, hsent⟩ hauth hcap

set_option maxRecDepth 40000 in
/-- Witness for C6: with `sent_recipients = max_recipients = 2`, a
Distribute call with one recipient fails with `TooManyRecipients` and the
bytes are unchanged. -/
theorem C6_witness :
    process_distribute pkProgramId
      ([distAccount (serializeDistribution (sampleRecord 2 2 10 2)),
        authorityAccount, tokenProgAccount, distTokenAccount] ++
        [recipientAccount]) =
      ⟨.error (distErr .TooManyRecipients),
        some (serializeDistribution (sampleRecord 2 2 10 2)), []⟩ :=
  (C6_capacity_invariant pkProgramId
    (distAccount (serializeDistribution (sampleRecord 2 2 10 2)))
    authorityAccount tokenProgAccount distTokenAccount [recipientAccount]
    (sampleRecord 2 2 10 2) rfl rfl rfl rfl (by decide) rfl
    (by decide)).2 rfl (by decide)

/-- C8: `funded_amount` accumulation through `FundDistribution` is exact
and order-independent whenever the mathematical sum fits in 64 bits, and an
addition that would overflow 64 bits aborts (panic in
`checked_add(..).unwrap()`) rather than wrapping, so `funded_amount` only
increases. -/
theorem C8_funding_exact (derive : DeriveFn) (program_id : Pubkey)
    (source source_token dist dist_token token_program : AccountInfo)
    (a1 a2 aBig : Nat) (d : Distribution)
    (hsig : source.is_signer = true)
    (hown : program_id = dist.owner)
    (htp : token_program.key = splTokenId)
    (hso : source_token.owner = token_program.key)
    (hdo : dist_token.owner = token_program.key)
    (hdata : dist.dataBytes = serializeDistribution d)
    (hvalid : ValidV1 d)
    (hder : derive d.data.pda_seed program_id = some dist.key)
    (hov : d.data.funded_amount + a1 + a2 < U64_MOD)
    (hbig : U64_MOD ≤ d.data.funded_amount + aBig) :
    process_fund_distribution derive program_id
      [source, source_token, dist, dist_token, token_program] a1 =
      ⟨.ok (), some (serializeDistribution (addFunded d a1)),
        [⟨token_program.key, source_token.key, dist_token.key, source.key,
          a1⟩]⟩ ∧
    process_fund_distribution derive program_id
      [source, source_token,
        { dist with dataBytes := serializeDistribution (addFunded d a1) },
        dist_token, token_program] a2 =
      ⟨.ok (), some (serializeDistribution (addFunded (addFunded d a1) a2)),
        [⟨token_program.key, source_token.key, dist_token.key, source.key,
          a2⟩]⟩ ∧
    addFunded (addFunded d a1) a2 = addFunded (addFunded d a2) a1 ∧
    (addFunded (addFunded d a1) a2).data.funded_amount =
      d.data.funded_amount + (a1 + a2) ∧
    (process_fund_distribution derive program_id
      [source, source_token, dist, dist_token, token_program] aBig).result =
      .error .Panic := by
  obtain ⟨hv, hs, hp, hb, ha, ht, hmax, hnum, hfund, hsent⟩ := hvalid
  have hvalid1 : ValidV1 d := ⟨hv, hs, hp, hb, ha, ht, hmax, hnum, hfund, hsent⟩
  have hvalid2 : ValidV1 (addFunded d a1) :=
    ⟨hv, hs, hp, hb, ha, ht, hmax, hnum, by simp [addFunded]; omega, hsent⟩
  refine ⟨?_, ?_, ?_, ?_, ?_⟩
  · exact fund_ok_run derive program_id source source_token dist dist_token
      token_program a1 d hsig hown htp hso hdo hdata hvalid1 hder (by omega)
  · exact fund_ok_run derive program_id source source_token
      { dist with dataBytes := serializeDistribution (addFunded d a1) }
      dist_token token_program a2 (addFunded d a1) hsig hown htp hso hdo rfl
      hvalid2 hder (by simp [addFunded]; omega)
  · simp [addFunded]
    omega
  · simp [addFunded]
    omega
  · rw [fund_overflow_run derive program_id source source_token dist dist_token
      token_program aBig d hsig hown htp hso hdo hdata hvalid1 hder hbig]

/-- Witness for C8: fund 1 then 2 from a zero-funded record, and a
`2^64`-sized amount aborts. -/
theorem C8_witness :
    process_fund_distribution sampleDerive pkProgramId
      [sourceAccount, sourceTokenAccount,
        distAccount (serializeDistribution (sampleRecord 5 0 0 0)),
        distTokenAccount, tokenProgAccount] 1 =
      ⟨.ok (), some (serializeDistribution (addFunded (sampleRecord 5 0 0 0) 1)),
        [⟨splTokenId, sourceTokenAccount.key, distTokenAccount.key,
          sourceAccount.key, 1⟩]⟩ ∧
    process_fund_distribution sampleDerive pkProgramId
      [sourceAccount, sourceTokenAccount,
        { distAccount (serializeDistribution (sampleRecord 5 0 0 0)) with
          dataBytes := serializeDistribution (addFunded (sampleRecord 5 0 0 0) 1) },
        distTokenAccount, tokenProgAccount] 2 =
      ⟨.ok (), some (serializeDistribution
          (addFunded (addFunded (sampleRecord 5 0 0 0) 1) 2)),
        [⟨splTokenId, sourceTokenAccount.key, distTokenAccount.key,
          sourceAccount.key, 2⟩]⟩ ∧
    addFunded (addFunded (sampleRecord 5 0 0 0) 1) 2 =
      addFunded (addFunded (sampleRecord 5 0 0 0) 2) 1 ∧
    (addFunded (addFunded (sampleRecord 5 0 0 0) 1) 2).data.funded_amount =
      (sampleRecord 5 0 0 0).data.funded_amount + (1 + 2) ∧
    (process_fund_distribution sampleDerive pkProgramId
      [sourceAccount, sourceTokenAccount,
        distAccount (serializeDistribution (sampleRecord 5 0 0 0)),
        distTokenAccount, tokenProgAccount] U64_MOD).result =
      .error .Panic :=
  C8_funding_exact sampleDerive pkProgramId sourceAccount sourceTokenAccount
    (distAccount (serializeDistribution (sampleRecord 5 0 0 0)))
    distTokenAccount tokenProgAccount 1 2 U64_MOD (sampleRecord 5 0 0 0)
    rfl rfl rfl rfl rfl rfl (by decide) rfl (by decide) (by decide)

/-- C10: the processor never checks that the distribution has started — on
an initialized record with `num_recipients = 0`, a Distribute call by the
stored authority over token-program-owned recipients (staying within
`max_recipients`) succeeds, issues one transfer of 0 tokens
(`recipient_share = 0`) to each recipient, and permanently adds the batch
size to `sent_recipients`. -/
theorem C10_distribute_before_begin (program_id : Pubkey)
    (dist auth token_program dist_token : AccountInfo)
    (recipients : List AccountInfo) (d : Distribution)
    (hown : program_id = dist.owner)
    (hsig : auth.is_signer = true)
    (htp : token_program.key = splTokenId)
    (hdata : dist.dataBytes = serializeDistribution d)
    (hvalid : ValidV1 d)
    (hauth : d.data.dist_authority = auth.key)
    (hnum : d.data.num_recipients = 0)
    (hcap : d.data.sent_recipients + recipients.length ≤ d.data.max_recipients)
    (howners : ∀ r ∈ recipients, r.owner = token_program.key) :
    process_distribute program_id
      ([dist, auth, token_program, dist_token] ++ recipients) =
      ⟨.ok (), some (serializeDistribution { d with data := { d.data with
          sent_recipients := d.data.sent_recipients + recipients.length } }),
        recipients.map fun r =>
          ⟨token_program.key, dist_token.key, r.key, dist.key, 0⟩⟩ := by
  have hmax : d.data.max_recipients < U16_MOD := hvalid.2.2.2.2.2.2.1
  have hshare : d.recipient_share = 0 := by
    simp [Distribution.recipient_share, hnum]
  have hloop := distributeLoop_all_ok token_program.key dist_token.key dist.key
    d.recipient_share recipients d hmax hcap howners
  have hrun := distribute_run_ok program_id dist auth token_program dist_token
    recipients d _ _ hown hsig htp hdata hvalid hauth hloop
  rw [hrun, hshare]

set_option maxRecDepth 40000 in
/-- Witness for C10: two zero-token transfers before `BeginDistribution`. -/
theorem C10_witness :
    process_distribute pkProgramId
      ([distAccount (serializeDistribution (sampleRecord 5 0 0 0)),
        authorityAccount, tokenProgAccount, distTokenAccount] ++
        [recipientAccount, recipientAccount]) =
      ⟨.ok (), some (serializeDistribution (sampleRecord 5 0 0 2)),
        [⟨splTokenId, distTokenAccount.key, pkRecipient, pkDistAddr, 0⟩,
         ⟨splTokenId, distTokenAccount.key, pkRecipient, pkDistAddr, 0⟩]⟩ :=
  C10_distribute_before_begin pkProgramId
    (distAccount (serializeDistribution (sampleRecord 5 0 0 0)))
    authorityAccount tokenProgAccount distTokenAccount
    [recipientAccount, recipientAccount] (sampleRecord 5 0 0 0)
    rfl rfl rfl rfl (by decide) rfl rfl (by decide) (by decide)
